import Mathlib

/-!
Verification of the Upwork-Plugin session-manager core against its
natural-language specification.

The definitions below are shallow embeddings of the Python source:

* `resolveNuxtValue`   embeds `_resolve_nuxt_value`   (src/session_manager/parser.py, lines 117-125)
* `fetchFrom`/`fetchPage` embed `UpworkScraper._fetch_page` (src/session_manager/scraper.py, lines 57-93)
* `upsertMerge`/`upsertJob` embed `JobRepository.upsert_job`'s SQL merge (src/database/repository.py, lines 30-78)
* `parseJobDetailMerge` embeds the strategy-merge in `parse_job_detail` (src/session_manager/parser.py, lines 308-360)
* `BrowserSession.start` embeds `BrowserSession.start` (src/session_manager/browser.py, lines 59-141)
* `extractJobIdFromUrl` embeds `_extract_job_id_from_url` (src/session_manager/parser.py, lines 72-75)
-/

namespace UpworkPlugin

/-! ### Graph Decoder (`_resolve_nuxt_value`)

A value in the flat NUXT data array.  The Python function only inspects
whether an entry `isinstance(..., int)`; every other JSON shape (string,
null, list, dict) flows through unchanged.  Python booleans are `int`
subclasses with `True == 1`, `False == 0`, and they index and compare as
those integers, so they are represented by `vint 1` / `vint 0`.  Composite
values (lists/dicts) are represented opaquely by `vnode`, tagged so that
distinct composites stay distinct. -/

inductive NuxtVal where
  | vint (n : Int)
  | vstr (s : String)
  | vnull
  | vnode (tag : Nat)
deriving DecidableEq, Repr

/-- Embedding of `_resolve_nuxt_value(data, index)` for an integer `index`:
return `index` itself when out of range; otherwise look at `value = data[index]`;
when `value` is an `int` with `value != index and 0 <= value < len(data)` the
code returns `data[value]` (one further hop), else it returns `value`. -/
def resolveNuxtValue (data : List NuxtVal) (index : Int) : NuxtVal :=
  if index < 0 ∨ (data.length : Int) ≤ index then
    NuxtVal.vint index
  else
    match data.getD index.toNat (NuxtVal.vint index) with
    | NuxtVal.vint v =>
        if v ≠ index ∧ 0 ≤ v ∧ v < (data.length : Int) then
          data.getD v.toNat (NuxtVal.vint v)
        else
          NuxtVal.vint v
    | value => value

/-! ### Authenticated Fetcher (`UpworkScraper._fetch_page`)

The loop `for attempt in range(3)` issues up to three requests.  Each
request either yields a response (with a final status code, a final URL that
may or may not contain `"/login"`, and a body), raises a connection error
(`httpx.ConnectError`), or raises a timeout (`httpx.ReadTimeout` etc.;
in httpx the timeout exceptions derive from `TimeoutException`, which is
*not* a subclass of `ConnectError`, so they are not caught by the loop's
`except httpx.ConnectError` clause and propagate out of the loop). -/

inductive Attempt where
  | resp (status : Nat) (urlHasLogin : Bool) (body : String)
  | connError
  | timeout
deriving DecidableEq, Repr

inductive FetchResult where
  | success (body : String)
  | sessionExpired
  | httpError (status : Nat)
  | timedOut
  | exhausted
deriving DecidableEq, Repr

/-- Trace of one `_fetch_page` call: the outcome, how many requests were
actually issued, and the backoff sleeps performed in the retry handlers
(in seconds, in order).  The fixed inter-request delay slept on the success
path is not a backoff and is not recorded. -/
structure FetchTrace where
  result : FetchResult
  attemptsMade : Nat
  backoffs : List Nat
deriving DecidableEq, Repr

/-- The loop body of `_fetch_page` from attempt index `i` with `fuel`
iterations remaining (`fuel = 3 - i` at entry).  Per attempt:
`status == 302 or "/login" in url` raises `RuntimeError` (session expired,
uncaught by the `except` clauses, so it escapes the loop);
`raise_for_status()` raises `HTTPStatusError` for any non-2xx status, and the
handler retries after `(attempt+1)*5` s on 429, after 2 s on 5xx, and
re-raises otherwise; `ConnectError` retries after 2 s; a timeout escapes the
loop.  Falling off the loop raises "Failed to fetch ... after 3 attempts". -/
def fetchFrom (env : Nat → Attempt) : Nat → Nat → List Nat → FetchTrace
  | i, 0, waits => ⟨FetchResult.exhausted, i, waits⟩
  | i, fuel + 1, waits =>
    match env i with
    | Attempt.timeout => ⟨FetchResult.timedOut, i + 1, waits⟩
    | Attempt.connError => fetchFrom env (i + 1) fuel (waits ++ [2])
    | Attempt.resp status login body =>
        if status = 302 ∨ login then
          ⟨FetchResult.sessionExpired, i + 1, waits⟩
        else if 200 ≤ status ∧ status < 300 then
          ⟨FetchResult.success body, i + 1, waits⟩
        else if status = 429 then
          fetchFrom env (i + 1) fuel (waits ++ [(i + 1) * 5])
        else if 500 ≤ status then
          fetchFrom env (i + 1) fuel (waits ++ [2])
        else
          ⟨FetchResult.httpError status, i + 1, waits⟩

/-- `_fetch_page`, driven by an environment giving the outcome of the
`attempt`-th request. -/
def fetchPage (env : Nat → Attempt) : FetchTrace :=
  fetchFrom env 0 3 []

/-! ### Record Store (`JobRepository.upsert_job`)

A stored row of the `jobs` table.  Text columns are bound from `str`
fields of the pydantic `Job` model (never `None`), so they are `String`;
nullable numeric columns are `Option Int` (the SQL merge never computes
with the numbers, it only tests `NULL`-ness, so the numeric carrier is
irrelevant); `skills` holds the `json.dumps(job.skills)` string exactly as
bound by `upsert_job`; `payment_verified` holds the bound
`1 if job.payment_verified else 0`. -/

structure Row where
  id : String
  url : String
  title : String
  description : String
  budget_type : String
  budget_amount : Option Int
  hourly_rate_min : Option Int
  hourly_rate_max : Option Int
  currency : String
  experience_level : String
  duration : String
  weekly_hours : String
  skills : String
  category : String
  subcategory : String
  client_country : String
  client_city : String
  client_rating : Option Int
  client_total_spent : Option Int
  client_hires : Option Int
  client_active_jobs : Option Int
  client_jobs_posted : Option Int
  client_company_size : String
  client_member_since : String
  payment_verified : Nat
  proposals_count : Option Int
  interviewing_count : Option Int
  invites_sent : Option Int
  connects_required : Option Int
  posted_date : String
  source : String
  search_query : String
  fetched_at : String
  raw_html : String
deriving DecidableEq, Repr

/-- SQL `COALESCE(a, b)` on nullable values. -/
def coalesce (a b : Option Int) : Option Int :=
  match a with
  | some x => some x
  | none => b

/-- The `ON CONFLICT(id) DO UPDATE SET` clause of `upsert_job`:
`old` is the stored row `jobs`, `new` is `excluded`.  Columns absent from
the SET list keep the stored value.  `COALESCE(NULLIF(excluded.c, ''),
jobs.c)` keeps the stored text when the incoming one is the empty string;
`CASE WHEN length(excluded.c) > length(jobs.c) ...` keeps the longer text;
`length(excluded.skills) > 2` accepts any serialized non-empty skill list
(`"[]"` has length 2). -/
def upsertMerge (old new : Row) : Row :=
  { old with
    title := new.title
    description :=
      if old.description.length < new.description.length then new.description
      else old.description
    budget_type :=
      if new.budget_type = "" then old.budget_type else new.budget_type
    budget_amount := coalesce new.budget_amount old.budget_amount
    hourly_rate_min := coalesce new.hourly_rate_min old.hourly_rate_min
    hourly_rate_max := coalesce new.hourly_rate_max old.hourly_rate_max
    experience_level :=
      if new.experience_level = "" then old.experience_level
      else new.experience_level
    skills := if 2 < new.skills.length then new.skills else old.skills
    client_rating := coalesce new.client_rating old.client_rating
    client_total_spent := coalesce new.client_total_spent old.client_total_spent
    client_hires := coalesce new.client_hires old.client_hires
    proposals_count := coalesce new.proposals_count old.proposals_count
    fetched_at := new.fetched_at
    raw_html :=
      if old.raw_html.length < new.raw_html.length then new.raw_html
      else old.raw_html }

/-- The jobs table, keyed by the `id` primary key. -/
def Store := String → Option Row

/-- `upsert_job`: `INSERT ... ON CONFLICT(id) DO UPDATE`; a fresh id inserts
the row, an existing id merges via `upsertMerge`. -/
def upsertJob (s : Store) (new : Row) : Store :=
  fun k =>
    if k = new.id then
      match s new.id with
      | none => some new
      | some old => some (upsertMerge old new)
    else s k

/-- `upsert_jobs`: upsert a list of jobs in order. -/
def upsertJobs (s : Store) (js : List Row) : Store :=
  js.foldl upsertJob s

/-- The empty jobs table. -/
def emptyStore : Store := fun _ => none

/-! ### Job-id extraction (`_extract_job_id_from_url`)

`re.search(r"(~[0-9a-f]+)", url)`: the first `~` followed by at least one
lowercase-hex digit yields `~` plus the maximal run of such digits; with no
match the empty string is returned. -/

def isHexDigitLower (c : Char) : Bool :=
  (decide ('0' ≤ c) && decide (c ≤ '9')) || (decide ('a' ≤ c) && decide (c ≤ 'f'))

def extractJobIdFromChars : List Char → String
  | [] => ""
  | c :: rest =>
    if c = '~' then
      let run := rest.takeWhile isHexDigitLower
      if run.isEmpty then extractJobIdFromChars rest
      else String.mk ('~' :: run)
    else extractJobIdFromChars rest

def extractJobIdFromUrl (url : String) : String :=
  extractJobIdFromChars url.data

/-- The id gate of `_parse_single_tile` (parser.py lines 229-232): given the
`href` of the tile's title link, the tile is dropped (`None`) when no job id
can be extracted from it; otherwise the extracted id becomes the record id. -/
def parseSingleTileId (href : String) : Option String :=
  let jobId := extractJobIdFromUrl href
  if jobId = "" then none else some jobId

/-- The last-resort link scan of `parse_job_tiles_from_html` (parser.py lines
184-199): each candidate link contributes its extracted job id when that id
is non-empty and not seen before. -/
def fallbackJobIds : List String → List String → List String
  | [], acc => acc.reverse
  | href :: rest, acc =>
    let jobId := extractJobIdFromUrl href
    if jobId ≠ "" ∧ jobId ∉ acc then fallbackJobIds rest (jobId :: acc)
    else fallbackJobIds rest acc

/-! ### Field Extractor merge (`parse_job_detail`)

A canonical record field, and a Python value with its truthiness.  The merge
in `parse_job_detail` only ever tests truthiness (`if v`, `not data.get(k)`),
so values are modelled by a small closed shape set with Python's falsiness:
`None`, `""`, `0`, `[]`, `False` are falsy. -/

inductive Field where
  | id | url | title | description | skills | duration | weekly_hours
  | budget_type | budget_amount | hourly_rate_min | hourly_rate_max
  | experience_level | posted_date | category | subcategory
  | client_country | client_city | client_rating | client_total_spent
  | client_hires | client_active_jobs | client_jobs_posted
  | payment_verified | proposals_count | invites_sent | interviewing_count
  | connects_required | raw_html
deriving DecidableEq, Repr

inductive Val where
  | vnone
  | vstr (s : String)
  | vnum (n : Int)
  | vlist (xs : List String)
  | vbool (b : Bool)
deriving DecidableEq, Repr

/-- Python truthiness of a value; a strategy maps absent fields to `vnone`. -/
def Val.truthy : Val → Bool
  | .vnone => false
  | .vstr s => s != ""
  | .vnum n => n != 0
  | .vlist xs => !xs.isEmpty
  | .vbool b => b

/-- A strategy's output: a value for each canonical field (`vnone` = omitted). -/
def Record := Field → Val

/-- `data.update(nuxt_fields)` where `nuxt_fields = {k: v for k, v in
nuxt_data.items() if v}` (parser.py lines 326-328): every truthy NUXT value
overwrites `data`, absent/falsy NUXT values leave `data` alone. -/
def applyNuxt (data nuxt : Record) : Record :=
  fun f => if (nuxt f).truthy then nuxt f else data f

/-- The fill-in-gaps loop used for the HTML-selector and meta strategies
(parser.py lines 336-339 and 345-348): a value is copied only when it is
truthy and `data` has no truthy value for that key yet. -/
def applyLower (data lower : Record) : Record :=
  fun f => if (lower f).truthy && !(data f).truthy then lower f else data f

/-- `parse_job_detail`'s merge (parser.py lines 317-360): start from
`{id, url, raw_html}`, overlay truthy NUXT fields, fill gaps from HTML
selectors, then from meta tags, and finally substitute the placeholder
title `"Unknown Job"` when no strategy produced a truthy title. -/
def parseJobDetailMerge (init nuxt html meta : Record) : Record :=
  let d1 := applyNuxt init nuxt
  let d2 := applyLower d1 html
  let d3 := applyLower d2 meta
  fun f =>
    if f = Field.title ∧ (d3 f).truthy = false then Val.vstr "Unknown Job"
    else d3 f

/-- The initial `data` dict of `parse_job_detail` (lines 317-321). -/
def detailInit (jobUrl html : String) : Record :=
  fun f =>
    match f with
    | Field.id => Val.vstr (extractJobIdFromUrl jobUrl)
    | Field.url => Val.vstr jobUrl
    | Field.raw_html => Val.vstr html
    | _ => Val.vnone

/-- The record with no field set. -/
def emptyRecord : Record := fun _ => Val.vnone

/-- `_extract_from_meta` (parser.py lines 557-575) as a record: description
from the description meta tag, title from `og:title`, and url plus an id
extracted from its content when `og:url` is present. -/
def metaRecord (metaDesc ogTitle ogUrl : Option String) : Record :=
  fun f =>
    match f with
    | Field.description =>
        match metaDesc with
        | some d => Val.vstr d
        | none => Val.vnone
    | Field.title =>
        match ogTitle with
        | some t => Val.vstr t
        | none => Val.vnone
    | Field.url =>
        match ogUrl with
        | some u => Val.vstr u
        | none => Val.vnone
    | Field.id =>
        match ogUrl with
        | some u => Val.vstr (extractJobIdFromUrl u)
        | none => Val.vnone
    | _ => Val.vnone

/-! ### Session Controller (`BrowserSession`)

The stored state of `BrowserSession` that `start` consults: `is_running`
(`self._page is not None`) and `_is_authenticated`.  The outcome of the
launch-navigate-classify sequence is an environment parameter. -/

structure BrowserSession where
  running : Bool
  authenticated : Bool
deriving DecidableEq, Repr

inductive NavOutcome where
  | launchError (msg : String)
  | captchaUnresolved (msg : String)
  | loginPage
  | clear
deriving DecidableEq, Repr

structure StartResult where
  state : String
  message : String
deriving DecidableEq, Repr

/-- A closed session: no page, not authenticated (`__init__` / after `stop`). -/
def closedSession : BrowserSession := ⟨false, false⟩

/-- `BrowserSession.start` (browser.py lines 59-141).  When `is_running` it
returns `{"state": "active", "message": "Browser already running."}` without
touching the browser; otherwise it launches and navigates, and the result of
that sequence decides the response: unresolved captcha → `captcha_required`,
login page detected → `needs_login`, clear → authenticated `active`, any
exception → `stop()` (releasing everything) and `error`. -/
def BrowserSession.start (s : BrowserSession) (env : NavOutcome) :
    BrowserSession × StartResult :=
  if s.running then
    (s, ⟨"active", "Browser already running."⟩)
  else
    match env with
    | NavOutcome.launchError m => (closedSession, ⟨"error", m⟩)
    | NavOutcome.captchaUnresolved m =>
        ({ running := true, authenticated := s.authenticated },
          ⟨"captcha_required", m⟩)
    | NavOutcome.loginPage =>
        ({ running := true, authenticated := s.authenticated },
          ⟨"needs_login",
            "Browser is open. Please log in to Upwork in the browser window and tell me when done."⟩)
    | NavOutcome.clear =>
        ({ running := true, authenticated := true },
          ⟨"active", "Session active with saved cookies."⟩)

/-! ### Concrete fixtures used by witnesses and counterexamples -/

/-- Attempt stream: 429 twice, then a success carrying `b`. -/
def env429TwiceThenOk (b : String) : Nat → Attempt :=
  fun i => if i < 2 then Attempt.resp 429 false "" else Attempt.resp 200 false b

/-- Attempt stream: 429 on every request. -/
def envAll429 : Nat → Attempt := fun _ => Attempt.resp 429 false ""

/-- Attempt stream: a timeout first, then a success. -/
def envTimeoutThenOk : Nat → Attempt :=
  fun i => if i = 0 then Attempt.timeout else Attempt.resp 200 false "ok"

/-- Attempt stream: a connection error first, then a success. -/
def envConnThenOk : Nat → Attempt :=
  fun i => if i = 0 then Attempt.connError else Attempt.resp 200 false "ok"

/-- The row bound by `upsert_job` for a `Job` carrying only pydantic
defaults besides its id (`currency = "USD"`, `skills = json.dumps([]) = "[]"`,
`payment_verified = 0`, everything else empty/NULL). -/
def baseRow (id : String) : Row :=
  { id := id, url := "", title := "", description := "", budget_type := "",
    budget_amount := none, hourly_rate_min := none, hourly_rate_max := none,
    currency := "USD", experience_level := "", duration := "", weekly_hours := "",
    skills := "[]", category := "", subcategory := "", client_country := "",
    client_city := "", client_rating := none, client_total_spent := none,
    client_hires := none, client_active_jobs := none, client_jobs_posted := none,
    client_company_size := "", client_member_since := "", payment_verified := 0,
    proposals_count := none, interviewing_count := none, invites_sent := none,
    connects_required := none, posted_date := "", source := "", search_query := "",
    fetched_at := "", raw_html := "" }

/-- Stored record of the spec scenario: `{id:"J1", title:"Dev", budgetAmount:100}`. -/
def scenarioFirst : Row :=
  { baseRow "J1" with title := "Dev", budget_amount := some 100 }

/-- Second upsert of the spec scenario:
`{id:"J1", title:"Dev", budgetAmount:null, skills:["python"]}`
(`json.dumps(["python"])` has length 10). -/
def scenarioSecond : Row :=
  { baseRow "J1" with title := "Dev", skills := "[\"python\"]" }

/-- An incoming record for J1 carrying `budgetAmount = 200`. -/
def c2Incoming : Row :=
  { baseRow "J1" with title := "Dev", budget_amount := some 200 }

/-- The session state after `start()` from closed landed on the login page:
the page exists (`running`) but the user is not authenticated. -/
def needsLoginSession : BrowserSession :=
  (BrowserSession.start closedSession NavOutcome.loginPage).1

/-- The expected stored row after the two scenario upserts. -/
def scenarioMergedRow : Row :=
  { baseRow "J1" with
    title := "Dev"
    budget_amount := some 100
    skills := "[\"python\"]" }

/-- A detail-page record parsed from a URL with no `~hex` job-id shape, on a
page yielding nothing from the NUXT, selector and meta strategies. -/
def noIdDetailRecord : Record :=
  parseJobDetailMerge
    (detailInit "https://www.upwork.com/jobs/listing" "<html></html>")
    emptyRecord emptyRecord (metaRecord none none none)

/-- A graph-strategy output with title `"A"` only. -/
def nuxtTitleA : Record :=
  fun f => if f = Field.title then Val.vstr "A" else Val.vnone

/-- A DOM-selector-strategy output with title `"B"` only. -/
def htmlTitleB : Record :=
  fun f => if f = Field.title then Val.vstr "B" else Val.vnone

/-! ## Theorems -/

/-- C1 (counterexample).  The claim states that for an in-range index `i`
with `sequence[i] != i` resolution returns `sequence[i]` and never
dereferences the returned value again.  For `data = [1, "x"]` and `i = 0`,
`data[0] = 1` is in range and differs from `0`, yet the code follows the
integer one further hop and returns `data[1] = "x"`, not `1`. -/
theorem C1_counterexample :
    resolveNuxtValue [NuxtVal.vint 1, NuxtVal.vstr "x"] 0 = NuxtVal.vstr "x" ∧
    [NuxtVal.vint 1, NuxtVal.vstr "x"].getD 0 (NuxtVal.vint 0) = NuxtVal.vint 1 ∧
    NuxtVal.vstr "x" ≠ NuxtVal.vint 1 := by
  refine ⟨by decide, by decide, by decide⟩

/-- C1 (amended).  Resolution is total and non-recursive: an out-of-range
index is returned unchanged as the raw integer; for an in-range `i`, a
self-referential entry (`sequence[i] = i`) returns the raw index, a
non-integer entry is returned after exactly one hop, an integer entry
`v ≠ i` that is itself in range is followed exactly one further hop
(returning `sequence[v]`, which is never dereferenced again), and an
integer entry that is out of range is returned as-is. -/
theorem C1_resolve_amended (data : List NuxtVal) (i : Int) :
    ((i < 0 ∨ (data.length : Int) ≤ i) → resolveNuxtValue data i = NuxtVal.vint i) ∧
    (0 ≤ i → i < (data.length : Int) →
      ((data.getD i.toNat (NuxtVal.vint i) = NuxtVal.vint i →
          resolveNuxtValue data i = NuxtVal.vint i) ∧
       (∀ v : Int, data.getD i.toNat (NuxtVal.vint i) = NuxtVal.vint v → v ≠ i →
          ((0 ≤ v ∧ v < (data.length : Int)) →
            resolveNuxtValue data i = data.getD v.toNat (NuxtVal.vint v)) ∧
          (¬ (0 ≤ v ∧ v < (data.length : Int)) →
            resolveNuxtValue data i = NuxtVal.vint v)) ∧
       (∀ s, data.getD i.toNat (NuxtVal.vint i) = NuxtVal.vstr s →
          resolveNuxtValue data i = NuxtVal.vstr s) ∧
       (data.getD i.toNat (NuxtVal.vint i) = NuxtVal.vnull →
          resolveNuxtValue data i = NuxtVal.vnull) ∧
       (∀ t, data.getD i.toNat (NuxtVal.vint i) = NuxtVal.vnode t →
          resolveNuxtValue data i = NuxtVal.vnode t))) := by
  constructor
  · intro h
    unfold resolveNuxtValue
    rw [if_pos h]
  · intro h0 hlen
    have hnot : ¬ (i < 0 ∨ (data.length : Int) ≤ i) := by omega
    refine ⟨?_, ?_, ?_, ?_, ?_⟩
    · intro hv
      unfold resolveNuxtValue
      rw [if_neg hnot, hv]
      simp
    · intro v hv hne
      constructor
      · intro hrange
        unfold resolveNuxtValue
        rw [if_neg hnot, hv]
        show (if v ≠ i ∧ 0 ≤ v ∧ v < (data.length : Int) then
            data.getD v.toNat (NuxtVal.vint v) else NuxtVal.vint v) = _
        rw [if_pos ⟨hne, hrange.1, hrange.2⟩]
      · intro hnr
        unfold resolveNuxtValue
        rw [if_neg hnot, hv]
        show (if v ≠ i ∧ 0 ≤ v ∧ v < (data.length : Int) then
            data.getD v.toNat (NuxtVal.vint v) else NuxtVal.vint v) = _
        rw [if_neg (by tauto)]
    · intro s hv
      unfold resolveNuxtValue
      rw [if_neg hnot, hv]
    · intro hv
      unfold resolveNuxtValue
      rw [if_neg hnot, hv]
    · intro t hv
      unfold resolveNuxtValue
      rw [if_neg hnot, hv]

/-- C1 witness: the amended theorem applied at the out-of-range index 5 of a
one-element array. -/
theorem C1_witness :
    resolveNuxtValue [NuxtVal.vstr "a"] 5 = NuxtVal.vint 5 :=
  (C1_resolve_amended [NuxtVal.vstr "a"] 5).1 (by decide)

/-- C2 (counterexample).  The claim states that a numeric field keeps the
existing stored value unless the incoming one is present *and* the existing
one is empty.  Storing `budget_amount = 100` for J1 and then upserting an
incoming record with `budget_amount = 200` yields a stored value of 200:
`COALESCE(excluded.budget_amount, jobs.budget_amount)` lets a present
incoming value replace a present stored one. -/
theorem C2_counterexample :
    upsertJobs emptyStore [scenarioFirst, c2Incoming] "J1" =
      some { baseRow "J1" with title := "Dev", budget_amount := some 200 } ∧
    (200 : Int) ≠ 100 := by
  refine ⟨by decide, by decide⟩

/-- C2 (amended).  For every numeric field in the SET list (budget amount,
hourly min/max, client rating/spend/hires, proposals count) the merge takes
the incoming value when it is present (non-NULL) and keeps the stored one
when the incoming value is NULL; for the categorical fields (budget type,
experience level) it takes the incoming value when it is a non-empty string
and keeps the stored one otherwise.  In particular an absent incoming value
never erases a stored value, and the spec's J1 scenario holds: after
upserting `{id:"J1", title:"Dev", budgetAmount:100}` and then
`{id:"J1", title:"Dev", budgetAmount:null, skills:["python"]}`, the stored
row has `budget_amount = 100` and `skills = ["python"]`. -/
theorem C2_merge_amended (old new : Row) :
    ((new.budget_amount = none →
        (upsertMerge old new).budget_amount = old.budget_amount) ∧
     (new.budget_amount ≠ none →
        (upsertMerge old new).budget_amount = new.budget_amount)) ∧
    ((new.hourly_rate_min = none →
        (upsertMerge old new).hourly_rate_min = old.hourly_rate_min) ∧
     (new.hourly_rate_min ≠ none →
        (upsertMerge old new).hourly_rate_min = new.hourly_rate_min)) ∧
    ((new.hourly_rate_max = none →
        (upsertMerge old new).hourly_rate_max = old.hourly_rate_max) ∧
     (new.hourly_rate_max ≠ none →
        (upsertMerge old new).hourly_rate_max = new.hourly_rate_max)) ∧
    ((new.client_rating = none →
        (upsertMerge old new).client_rating = old.client_rating) ∧
     (new.client_rating ≠ none →
        (upsertMerge old new).client_rating = new.client_rating)) ∧
    ((new.client_total_spent = none →
        (upsertMerge old new).client_total_spent = old.client_total_spent) ∧
     (new.client_total_spent ≠ none →
        (upsertMerge old new).client_total_spent = new.client_total_spent)) ∧
    ((new.client_hires = none →
        (upsertMerge old new).client_hires = old.client_hires) ∧
     (new.client_hires ≠ none →
        (upsertMerge old new).client_hires = new.client_hires)) ∧
    ((new.proposals_count = none →
        (upsertMerge old new).proposals_count = old.proposals_count) ∧
     (new.proposals_count ≠ none →
        (upsertMerge old new).proposals_count = new.proposals_count)) ∧
    ((new.budget_type = "" →
        (upsertMerge old new).budget_type = old.budget_type) ∧
     (new.budget_type ≠ "" →
        (upsertMerge old new).budget_type = new.budget_type)) ∧
    ((new.experience_level = "" →
        (upsertMerge old new).experience_level = old.experience_level) ∧
     (new.experience_level ≠ "" →
        (upsertMerge old new).experience_level = new.experience_level)) ∧
    upsertJobs emptyStore [scenarioFirst, scenarioSecond] "J1" =
      some scenarioMergedRow := by
  refine ⟨⟨?_, ?_⟩, ⟨?_, ?_⟩, ⟨?_, ?_⟩, ⟨?_, ?_⟩, ⟨?_, ?_⟩, ⟨?_, ?_⟩, ⟨?_, ?_⟩,
    ⟨?_, ?_⟩, ⟨?_, ?_⟩, by decide⟩ <;>
    intro h <;>
    first
    | (simp [upsertMerge, coalesce, h]; done)
    | (obtain ⟨v, hv⟩ := Option.ne_none_iff_exists'.mp h
       simp [upsertMerge, coalesce, hv])

/-- C2 witness: the amended theorem applied to the J1 rows — an incoming
NULL budget amount keeps the stored 100. -/
theorem C2_witness :
    (upsertMerge scenarioFirst scenarioSecond).budget_amount = some 100 :=
  (C2_merge_amended scenarioFirst scenarioSecond).1.1 rfl

/-- Helper: one upsert never shrinks the stored description or raw capture
of any id already present. -/
theorem upsertJob_grows (s : Store) (j : Row) (id : String) (r : Row)
    (h : s id = some r) :
    ∃ r2 : Row, upsertJob s j id = some r2 ∧
      r.description.length ≤ r2.description.length ∧
      r.raw_html.length ≤ r2.raw_html.length := by
  by_cases hid : id = j.id
  · subst hid
    refine ⟨upsertMerge r j, by simp [upsertJob, h], ?_, ?_⟩
    · simp only [upsertMerge]
      split <;> omega
    · simp only [upsertMerge]
      split <;> omega
  · exact ⟨r, by simp [upsertJob, hid, h], le_refl _, le_refl _⟩

/-- Helper: a sequence of upserts never shrinks the stored description or
raw capture of any id already present. -/
theorem upsertJobs_grows (js : List Row) :
    ∀ (s : Store) (id : String) (r : Row), s id = some r →
      ∃ r2 : Row, upsertJobs s js id = some r2 ∧
        r.description.length ≤ r2.description.length ∧
        r.raw_html.length ≤ r2.raw_html.length := by
  induction js with
  | nil => exact fun s id r h => ⟨r, h, le_refl _, le_refl _⟩
  | cons j rest ih =>
    intro s id r h
    obtain ⟨r1, h1, hd1, hr1⟩ := upsertJob_grows s j id r h
    obtain ⟨r2, h2, hd2, hr2⟩ := ih (upsertJob s j) id r1 h1
    exact ⟨r2, h2, le_trans hd1 hd2, le_trans hr1 hr2⟩

/-- C3.  Merging an incoming record whose description (resp. raw capture)
is shorter than or equal in length to the stored one leaves the stored
value unchanged; a strictly longer one replaces it; and across any sequence
of upserts the stored lengths of these two fields never decrease. -/
theorem C3_length_monotonic (old new : Row) (s : Store) (js : List Row)
    (id : String) :
    ((new.description.length ≤ old.description.length →
        (upsertMerge old new).description = old.description) ∧
     (old.description.length < new.description.length →
        (upsertMerge old new).description = new.description) ∧
     (new.raw_html.length ≤ old.raw_html.length →
        (upsertMerge old new).raw_html = old.raw_html) ∧
     (old.raw_html.length < new.raw_html.length →
        (upsertMerge old new).raw_html = new.raw_html)) ∧
    (∀ r : Row, s id = some r →
      ∃ r2 : Row, upsertJobs s js id = some r2 ∧
        r.description.length ≤ r2.description.length ∧
        r.raw_html.length ≤ r2.raw_html.length) := by
  refine ⟨⟨?_, ?_, ?_, ?_⟩, fun r h => upsertJobs_grows js s id r h⟩ <;>
    intro h <;> simp only [upsertMerge] <;> split <;> first | rfl | omega

/-- C3 witness: the monotonicity statement applied to the stored J1 row and
a further upsert with an equal-length (empty) description. -/
theorem C3_witness :
    ∃ r2 : Row,
      upsertJobs (upsertJob emptyStore scenarioFirst) [scenarioSecond] "J1" =
        some r2 ∧
      scenarioFirst.description.length ≤ r2.description.length ∧
      scenarioFirst.raw_html.length ≤ r2.raw_html.length :=
  (C3_length_monotonic (baseRow "") (baseRow "")
      (upsertJob emptyStore scenarioFirst) [scenarioSecond] "J1").2
    scenarioFirst (by decide)

/-- Helper: every id collected by the last-resort link scan is non-empty,
provided every id already in the accumulator is. -/
theorem fallbackJobIds_nonempty (hrefs : List String) :
    ∀ acc : List String, (∀ x ∈ acc, x ≠ "") →
      ∀ jid ∈ fallbackJobIds hrefs acc, jid ≠ "" := by
  induction hrefs with
  | nil =>
    intro acc hacc jid hmem
    simp only [fallbackJobIds, List.mem_reverse] at hmem
    exact hacc jid hmem
  | cons h rest ih =>
    intro acc hacc jid hmem
    simp only [fallbackJobIds] at hmem
    by_cases hc : extractJobIdFromUrl h ≠ "" ∧ extractJobIdFromUrl h ∉ acc
    · rw [if_pos hc] at hmem
      refine ih (extractJobIdFromUrl h :: acc) ?_ jid hmem
      intro x hx
      rcases List.mem_cons.mp hx with hx | hx
      · exact hx ▸ hc.1
      · exact hacc x hx
    · rw [if_neg hc] at hmem
      exact ih acc hacc jid hmem

/-- Helper: any sequence of upserts leaves the stored id of an existing row
unchanged (the ON CONFLICT SET clause never assigns `id`). -/
theorem upsertJobs_keeps_id (js : List Row) :
    ∀ (s : Store) (id : String) (old : Row), s id = some old →
      ∃ row : Row, upsertJobs s js id = some row ∧ row.id = old.id := by
  induction js with
  | nil => exact fun s id old h => ⟨old, h, rfl⟩
  | cons j rest ih =>
    intro s id old h
    by_cases hid : id = j.id
    · subst hid
      obtain ⟨row, hrow, hei⟩ :=
        ih (upsertJob s j) j.id (upsertMerge old j) (by simp [upsertJob, h])
      exact ⟨row, hrow, by rw [hei]; rfl⟩
    · exact ih (upsertJob s j) id old (by simp [upsertJob, hid, h])

/-- C4 (counterexample).  The claim states every persisted Listing has a
non-empty id.  Parsing a detail page whose URL has no `~hex` id shape and
which yields nothing from any strategy produces a record with `id = ""`
(and the placeholder title), and the store accepts a row with that empty id
unchanged. -/
theorem C4_counterexample :
    noIdDetailRecord Field.id = Val.vstr "" ∧
    noIdDetailRecord Field.title = Val.vstr "Unknown Job" ∧
    upsertJob emptyStore (baseRow "") "" = some (baseRow "") ∧
    (baseRow "").id = "" := by
  refine ⟨by decide, by decide, by decide, by decide⟩

/-- C4 (amended).  Every listing produced by tile extraction (both the
per-tile id gate and the last-resort link scan) has a non-empty id, and
merge-upserting never changes the stored id of any row; detail-page
extraction, however, takes its id from the `~hex` pattern of the page URL
(using it whenever it is present there), and when the URL lacks that
pattern and no `og:url` metadata supplies one the record is persisted with
an empty id. -/
theorem C4_id_amended :
    (∀ href jid, parseSingleTileId href = some jid → jid ≠ "") ∧
    (∀ hrefs : List String, ∀ jid ∈ fallbackJobIds hrefs [], jid ≠ "") ∧
    (∀ (js : List Row) (s : Store) (id : String) (old : Row),
      s id = some old →
      ∃ row : Row, upsertJobs s js id = some row ∧ row.id = old.id) ∧
    (∀ (url html : String) (nuxt htmlRec : Record)
        (metaDesc ogTitle ogUrl : Option String),
      nuxt Field.id = Val.vnone → htmlRec Field.id = Val.vnone →
      extractJobIdFromUrl url ≠ "" →
      parseJobDetailMerge (detailInit url html) nuxt htmlRec
          (metaRecord metaDesc ogTitle ogUrl) Field.id =
        Val.vstr (extractJobIdFromUrl url)) := by
  refine ⟨?_, ?_, ?_, ?_⟩
  · intro href jid h
    simp only [parseSingleTileId] at h
    by_cases hc : extractJobIdFromUrl href = ""
    · rw [if_pos hc] at h; exact absurd h (by simp)
    · rw [if_neg hc] at h
      exact Option.some_injective _ h ▸ hc
  · intro hrefs jid hmem
    exact fallbackJobIds_nonempty hrefs [] (by simp) jid hmem
  · exact fun js s id old h => upsertJobs_keeps_id js s id old h
  · intro url html nuxt htmlRec metaDesc ogTitle ogUrl hn hh hu
    have htruthy : (Val.vstr (extractJobIdFromUrl url)).truthy = true := by
      simp [Val.truthy, hu]
    simp [parseJobDetailMerge, applyNuxt, applyLower, detailInit, hn, hh,
      htruthy, Val.truthy]
    exact fun _ habs => absurd habs hu

/-- C4 witness: the amended theorem applied to a concrete tile href. -/
theorem C4_witness : ("~0abc" : String) ≠ "" :=
  C4_id_amended.1 "x~0abc" "~0abc" rfl

/-- C5 (counterexample).  The claim states that `start()` while not closed
returns the session's current state.  Starting from closed and landing on
the login page yields state `"needs_login"` with a running, unauthenticated
browser; calling `start()` again on that session returns `"active"` — not
the current state. -/
theorem C5_counterexample :
    (BrowserSession.start closedSession NavOutcome.loginPage).2.state =
      "needs_login" ∧
    needsLoginSession.running = true ∧
    needsLoginSession.authenticated = false ∧
    (BrowserSession.start needsLoginSession NavOutcome.clear).2.state =
      "active" ∧
    ("active" : String) ≠ "needs_login" := by
  refine ⟨by decide, by decide, by decide, by decide, by decide⟩

/-- C5 (amended).  Calling `start()` in any state where the browser is
running performs no launch or navigation and does not spawn a second
instance: the session is left exactly as it was, and the reply is always
`state = "active"`, `message = "Browser already running."` — independent of
the environment, and regardless of whether the session is actually
authenticated, awaiting login, or blocked on a captcha. -/
theorem C5_start_amended (s : BrowserSession) (env : NavOutcome)
    (h : s.running = true) :
    BrowserSession.start s env =
      (s, ⟨"active", "Browser already running."⟩) := by
  simp [BrowserSession.start, h]

/-- C5 witness: the amended theorem applied to the running-but-needs-login
session. -/
theorem C5_witness :
    BrowserSession.start needsLoginSession NavOutcome.clear =
      (needsLoginSession, ⟨"active", "Browser already running."⟩) :=
  C5_start_amended needsLoginSession NavOutcome.clear rfl

/-- C6.  Whenever the request of the current attempt comes back with a
final URL matching the login-page shape, `_fetch_page` fails immediately
with the session-expired error: no backoff is recorded and no further
attempt is made, however much of the 3-attempt budget remains. -/
theorem C6_session_expiry_short_circuit (env : Nat → Attempt)
    (i fuel : Nat) (waits : List Nat) (s : Nat) (b : String)
    (hfuel : 0 < fuel) (henv : env i = Attempt.resp s true b) :
    fetchFrom env i fuel waits =
      ⟨FetchResult.sessionExpired, i + 1, waits⟩ := by
  obtain ⟨n, rfl⟩ : ∃ n, fuel = n + 1 := ⟨fuel - 1, by omega⟩
  simp [fetchFrom, henv]

/-- C6 witness: a first-attempt response redirected to the login page, with
the whole 3-attempt budget remaining. -/
theorem C6_witness :
    fetchFrom (fun _ => Attempt.resp 200 true "page") 0 3 [] =
      ⟨FetchResult.sessionExpired, 1, []⟩ :=
  C6_session_expiry_short_circuit (fun _ => Attempt.resp 200 true "page")
    0 3 [] 200 "page" (by decide) rfl

/-- Helper: the fetch loop issues at most `i + fuel` requests in total. -/
theorem fetchFrom_attempts_le (env : Nat → Attempt) :
    ∀ (fuel i : Nat) (waits : List Nat),
      (fetchFrom env i fuel waits).attemptsMade ≤ i + fuel := by
  intro fuel
  induction fuel with
  | zero => intro i waits; simp [fetchFrom]
  | succ n ih =>
    intro i waits
    unfold fetchFrom
    split
    · simp
    · exact le_trans (ih (i + 1) _) (by omega)
    · split_ifs
      · simp
      · simp
      · exact le_trans (ih (i + 1) _) (by omega)
      · exact le_trans (ih (i + 1) _) (by omega)
      · simp

/-- C7.  The 429 retry policy: a URL answering 429 twice and succeeding on
the third attempt returns the success payload after exactly 3 attempts with
the increasing backoffs 5 s then 10 s (backoff `(attempt_index + 1) * 5`);
a URL answering 429 on all three attempts exhausts the budget
(`FetchExhausted`) after backoffs 5, 10, 15; and no fetch ever makes more
than 3 attempts. -/
theorem C7_rate_limit_retry :
    (∀ b : String,
      fetchPage (env429TwiceThenOk b) =
        ⟨FetchResult.success b, 3, [5, 10]⟩) ∧
    fetchPage envAll429 = ⟨FetchResult.exhausted, 3, [5, 10, 15]⟩ ∧
    (∀ env : Nat → Attempt, (fetchPage env).attemptsMade ≤ 3) := by
  refine ⟨fun b => rfl, rfl, fun env => fetchFrom_attempts_le env 3 0 []⟩

/-- C8 (counterexample).  The claim states a timed-out request is treated
the same as a connection failure (2 s backoff, retried).  A timeout on the
first attempt aborts the fetch at once — one attempt, no backoff — while a
connection error on the first attempt is indeed retried and succeeds. -/
theorem C8_counterexample :
    fetchPage envTimeoutThenOk = ⟨FetchResult.timedOut, 1, []⟩ ∧
    fetchPage envConnThenOk = ⟨FetchResult.success "ok", 2, [2]⟩ ∧
    FetchResult.timedOut ≠ FetchResult.success "ok" := by
  refine ⟨rfl, rfl, by decide⟩

/-- C8 (amended).  Every request is bounded by the client's configured 30 s
timeout, so no fetch blocks indefinitely; a connection failure is retried
after a fixed 2 s backoff within the 3-attempt budget; but a timeout
exception is not caught by the retry handlers (httpx timeout errors are not
`ConnectError`s) and propagates immediately on the attempt where it
occurs. -/
theorem C8_timeout_amended (env : Nat → Attempt) (i fuel : Nat)
    (waits : List Nat) (hfuel : 0 < fuel) :
    (env i = Attempt.timeout →
      fetchFrom env i fuel waits = ⟨FetchResult.timedOut, i + 1, waits⟩) ∧
    (env i = Attempt.connError →
      fetchFrom env i fuel waits =
        fetchFrom env (i + 1) (fuel - 1) (waits ++ [2])) := by
  obtain ⟨n, rfl⟩ : ∃ n, fuel = n + 1 := ⟨fuel - 1, by omega⟩
  constructor
  · intro h
    simp [fetchFrom, h]
  · intro h
    simp [fetchFrom, h]

/-- C8 witness: the amended theorem applied at the first attempt of the
timeout-then-success stream. -/
theorem C8_witness :
    fetchFrom envTimeoutThenOk 0 3 [] = ⟨FetchResult.timedOut, 1, []⟩ :=
  (C8_timeout_amended envTimeoutThenOk 0 3 [] (by decide)).1 rfl

/-- C9.  Strategy precedence in `parse_job_detail`: a field with a truthy
graph-strategy (NUXT) value always ends up with that value; a field the
graph strategy and the initial dict leave empty but the DOM-selector
strategy fills is never overwritten by the metadata strategy; and in
particular graph title `"A"` beats DOM title `"B"`. -/
theorem C9_precedence (init nuxt html meta : Record) (f : Field) :
    ((nuxt f).truthy = true →
      parseJobDetailMerge init nuxt html meta f = nuxt f) ∧
    ((nuxt f).truthy = false → (init f).truthy = false →
      (html f).truthy = true →
      parseJobDetailMerge init nuxt html meta f = html f) ∧
    (nuxt Field.title = Val.vstr "A" → html Field.title = Val.vstr "B" →
      parseJobDetailMerge init nuxt html meta Field.title = Val.vstr "A") := by
  have hi : ∀ g : Field, (nuxt g).truthy = true →
      parseJobDetailMerge init nuxt html meta g = nuxt g := by
    intro g h
    simp [parseJobDetailMerge, applyNuxt, applyLower, h]
  refine ⟨hi f, ?_, ?_⟩
  · intro h1 h2 h3
    simp [parseJobDetailMerge, applyNuxt, applyLower, h1, h2, h3]
  · intro hA hB
    have h := hi Field.title (by rw [hA]; decide)
    rw [hA] at h
    exact h

/-- C9 witness: the precedence theorem applied to concrete strategy outputs
with graph title `"A"` and DOM title `"B"`. -/
theorem C9_witness :
    parseJobDetailMerge emptyRecord nuxtTitleA htmlTitleB emptyRecord
      Field.title = Val.vstr "A" :=
  (C9_precedence emptyRecord nuxtTitleA htmlTitleB emptyRecord
      Field.title).2.2 rfl rfl

/-- C10.  An HTTP error status that is neither 302, nor 429, nor a 5xx
(for example 403 or 404) on the first attempt makes `_fetch_page` re-raise
immediately: exactly one attempt is made, no backoff is recorded, and the
error carries the status. -/
theorem C10_non_retryable_http_error (env : Nat → Attempt) (s : Nat)
    (b : String) (h4 : 400 ≤ s) (h5 : s < 500) (h429 : s ≠ 429)
    (henv : env 0 = Attempt.resp s false b) :
    fetchPage env = ⟨FetchResult.httpError s, 1, []⟩ := by
  have h302 : s ≠ 302 := by omega
  have h2xx : ¬ (200 ≤ s ∧ s < 300) := by omega
  have h5xx : ¬ 500 ≤ s := by omega
  simp [fetchPage, fetchFrom, henv, h302, h2xx, h429, h5xx]

/-- C10 witness: a 404 response on the first attempt. -/
theorem C10_witness :
    fetchPage (fun _ => Attempt.resp 404 false "nope") =
      ⟨FetchResult.httpError 404, 1, []⟩ :=
  C10_non_retryable_http_error (fun _ => Attempt.resp 404 false "nope")
    404 "nope" (by decide) (by decide) (by decide) rfl

end UpworkPlugin
